import Mathlib

/-!
# Verification of the Eiger `Interface` orchestration logic

Shallow embedding of `src/EigerInterface.cpp` (LImA Eiger camera plugin).
The orchestrator composes a camera control object, a saving controller, a
stream transport and a decompression task; its methods (`getStatus`,
`prepareAcq`, `startAcq`, `stopAcq`, `reset`, constructor, destructor) are
modelled as pure functions from the sub-component states they read to the
value they compute and the ordered trace of collaborator calls they issue.

External collaborator calls (camera commands, saving/stream start/stop,
sleeps) are recorded as events in a trace; fallible collaborator steps
(camera-level prepare, serie-id propagation, the stream armed wait) carry
an `Option Nat` outcome in the environment, `some e` meaning the call
throws an exception modelled by the code `e`.  Per the collaborator
contracts, the stop operations of the camera, the saving controller and
the stream are fire-and-forget and do not throw; the environment still
records whether each one fails internally so that independence of the stop
sequence from those failures can be stated.
-/

namespace EigerVerif

/-- `Camera::Status` as read by the orchestrator. -/
inductive CameraStatus where
  | Ready
  | Initializing
  | Exposure
  | Armed
  | Fault
  deriving DecidableEq, Repr

/-- Lima trigger modes relevant to the orchestrator; `IntTrigMult` is the
distinguished internal multi-trigger mode. -/
inductive TrigMode where
  | IntTrig
  | IntTrigMult
  | ExtTrigSingle
  | ExtTrigMult
  | ExtGate
  deriving DecidableEq, Repr

/-- `SavingCtrlObj::Status` sub-status values: idle, running, or error
(the error value is what the code's `default` branch receives). -/
inductive SavingStatus where
  | IDLE
  | RUNNING
  | ERROR
  deriving DecidableEq, Repr

/-- `HwInterface::StatusType` acquisition values the orchestrator reports. -/
inductive HwStatus where
  | Ready
  | Exposure
  | Readout
  | Fault
  | Config
  deriving DecidableEq, Repr

/-- One collaborator call issued by the orchestrator, in program order. -/
inductive Event where
  | camDisarm
  | sleepUsec (micros : Nat)
  | camDeleteMemoryFiles
  | streamSetActive (b : Bool)
  | decompressSetActive (b : Bool)
  | streamResetStatistics
  | camPrepareAcq
  | camGetSerieId
  | savingSetSerieId (id : Int)
  | streamWaitArmed (timeoutSecs : ℚ)
  | savingStart
  | streamStart
  | camStartAcq
  | camStopAcq
  | savingStop
  | streamStop
  deriving DecidableEq, Repr

/-! ## `Interface::getStatus` (EigerInterface.cpp lines 188-248) -/

/-- Direct translation of the `switch` in `Interface::getStatus`: from the
camera status, the trigger configuration (`getTrigMode`, `getNbFrames`,
`getNbTriggeredFrames`), the saving controller activity and sub-status, and
whether the stream is running, compute the composite status. -/
def getStatus (cam_status : CameraStatus) (trig_mode : TrigMode)
    (tot_nb_frames nb_trig_frames : Int) (saving_active : Bool)
    (saving_status : SavingStatus) (stream_running : Bool) : HwStatus :=
  match cam_status with
  | CameraStatus.Ready =>
      let mult_trig_in_progress : Bool :=
        if trig_mode = TrigMode.IntTrigMult then
          decide (nb_trig_frames ≠ tot_nb_frames)
        else false
      if mult_trig_in_progress then HwStatus.Ready
      else if saving_active then
        match saving_status with
        | SavingStatus.IDLE => HwStatus.Ready
        | SavingStatus.RUNNING => HwStatus.Readout
        | _ => HwStatus.Fault
      else if stream_running then HwStatus.Readout
      else HwStatus.Ready
  | CameraStatus.Exposure => HwStatus.Exposure
  | CameraStatus.Armed => HwStatus.Ready
  | CameraStatus.Fault => HwStatus.Fault
  | CameraStatus.Initializing => HwStatus.Config

/-- The spec's decision table for the composite status (§4.5), written row
by row from the specification text, to be compared with `getStatus`. -/
def getStatusSpecTable (cam_status : CameraStatus) (trig_mode : TrigMode)
    (tot_nb_frames nb_trig_frames : Int) (saving_active : Bool)
    (saving_status : SavingStatus) (stream_running : Bool) : HwStatus :=
  match cam_status with
  | CameraStatus.Exposure => HwStatus.Exposure
  | CameraStatus.Armed => HwStatus.Ready
  | CameraStatus.Fault => HwStatus.Fault
  | CameraStatus.Initializing => HwStatus.Config
  | CameraStatus.Ready =>
      if trig_mode = TrigMode.IntTrigMult ∧ nb_trig_frames ≠ tot_nb_frames then
        HwStatus.Ready
      else if saving_active then
        match saving_status with
        | SavingStatus.IDLE => HwStatus.Ready
        | SavingStatus.RUNNING => HwStatus.Readout
        | _ => HwStatus.Fault
      else if stream_running then HwStatus.Readout
      else HwStatus.Ready

/-- C1: for every combination of sub-component states, `getStatus` returns
the composite status given by the spec's decision table: Exposure maps to
Exposure, Armed to Ready, Fault to Fault, Initializing to Config; Ready
with an internal multi-trigger in progress maps to Ready; Ready with
saving active maps to Ready/Readout/Fault as the saving sub-status is
Idle/Running/anything else; Ready with saving inactive maps to Readout if
the stream runs, else Ready. -/
theorem getStatus_matches_spec_table (cam_status : CameraStatus)
    (trig_mode : TrigMode) (tot_nb_frames nb_trig_frames : Int)
    (saving_active : Bool) (saving_status : SavingStatus)
    (stream_running : Bool) :
    getStatus cam_status trig_mode tot_nb_frames nb_trig_frames
        saving_active saving_status stream_running =
      getStatusSpecTable cam_status trig_mode tot_nb_frames nb_trig_frames
        saving_active saving_status stream_running := by
  cases cam_status <;>
    by_cases htm : trig_mode = TrigMode.IntTrigMult <;>
    by_cases hfr : nb_trig_frames = tot_nb_frames <;>
    simp [getStatus, getStatusSpecTable, htm, hfr]

/-! ## `Interface::prepareAcq` (EigerInterface.cpp lines 112-150) -/

/-- State read by `Interface::prepareAcq` and the outcomes of its fallible
collaborator calls: the camera status, the saving controller activity, the
camera serie id, and for each step of the `try` block (`m_cam.prepareAcq`,
the serie-id propagation `getSerieId`/`setSerieId`, `m_stream->waitArmed`)
either `none` (the call returns normally) or `some e` (the call throws the
exception modelled by the code `e`). -/
structure PrepEnv where
  camStatus : CameraStatus
  savingActive : Bool
  serieId : Int
  camPrepareThrows : Option Nat
  serieIdThrows : Option Nat
  waitArmedThrows : Option Nat
  deriving DecidableEq, Repr

/-- Result of a `prepareAcq` call: the ordered trace of collaborator
calls, the stream and decompression active flags as left by the call, and
`some e` when the call re-raises the exception `e` to the caller. -/
structure PrepResult where
  trace : List Event
  streamActive : Bool
  decompressActive : Bool
  outcome : Option Nat
  deriving DecidableEq, Repr

/-- Direct translation of `Interface::prepareAcq`: read the saving flag;
if the camera is armed, disarm and (when on-detector saving is in use)
sleep 2e6 microseconds; when saving is in use, clear the detector storage;
set the stream and decompression active flags to the negation of the
saving flag; reset stream statistics; then, in a `try` block, delegate the
camera-level prepare, propagate the serie id to the saving controller and,
on the stream path only, wait (5.0 s timeout) for the stream to arm; on
any exception, stop the saving controller then the stream and re-raise. -/
def prepareAcq (env : PrepEnv) : PrepResult :=
  let use_filewriter := env.savingActive
  let disarmTrace : List Event :=
    if env.camStatus = CameraStatus.Armed then
      Event.camDisarm ::
        (if use_filewriter then [Event.sleepUsec 2000000] else [])
    else []
  let clearTrace : List Event :=
    if use_filewriter then [Event.camDeleteMemoryFiles] else []
  let pre := disarmTrace ++ clearTrace ++
    [Event.streamSetActive (!use_filewriter),
     Event.decompressSetActive (!use_filewriter),
     Event.streamResetStatistics]
  match env.camPrepareThrows with
  | some e =>
      ⟨pre ++ [Event.camPrepareAcq, Event.savingStop, Event.streamStop],
        !use_filewriter, !use_filewriter, some e⟩
  | none =>
    match env.serieIdThrows with
    | some e =>
        ⟨pre ++ [Event.camPrepareAcq, Event.camGetSerieId,
            Event.savingStop, Event.streamStop],
          !use_filewriter, !use_filewriter, some e⟩
    | none =>
      let mid := pre ++ [Event.camPrepareAcq, Event.camGetSerieId,
        Event.savingSetSerieId env.serieId]
      if use_filewriter then
        ⟨mid, !use_filewriter, !use_filewriter, none⟩
      else
        match env.waitArmedThrows with
        | some e =>
            ⟨mid ++ [Event.streamWaitArmed 5, Event.savingStop,
                Event.streamStop],
              !use_filewriter, !use_filewriter, some e⟩
        | none =>
            ⟨mid ++ [Event.streamWaitArmed 5], !use_filewriter,
              !use_filewriter, none⟩

/-- C3: after every `prepareAcq` call, for any initial saving flag and any
outcome of the fallible steps, the stream active flag and the
decompression active flag are both the negation of the saving flag read at
the start of the call, and the two flags are equal. -/
theorem prepareAcq_flags_negation_of_saving (env : PrepEnv) :
    (prepareAcq env).streamActive = !env.savingActive ∧
    (prepareAcq env).decompressActive = !env.savingActive ∧
    (prepareAcq env).streamActive = (prepareAcq env).decompressActive := by
  obtain ⟨cs, sav, sid, cp, si, wa⟩ := env
  cases cp <;> cases si <;> cases wa <;> cases sav <;> simp [prepareAcq]

/-- The error raised by the first failing step of the `try` block of
`prepareAcq`, as determined by the environment: the camera-level prepare,
then the serie-id propagation, then (on the stream path only) the stream
armed wait; `none` when no step fails. -/
def prepFirstErr (env : PrepEnv) : Option Nat :=
  match env.camPrepareThrows with
  | some e => some e
  | none =>
    match env.serieIdThrows with
    | some e => some e
    | none => if env.savingActive then none else env.waitArmedThrows

/-- C5: if any exception is raised during the delegation steps of
`prepareAcq` (camera-level prepare, serie-id propagation, or the stream
armed wait), the call stops the saving controller and then the stream —
its last two collaborator calls, i.e. the first two calls of the reversed
trace are the stream stop preceded by the saving stop — and re-raises the
same error unchanged to the caller. -/
theorem prepareAcq_rollback_then_rethrow (env : PrepEnv) (e : Nat)
    (h : prepFirstErr env = some e) :
    (prepareAcq env).outcome = some e ∧
    (prepareAcq env).trace.reverse.take 2 =
      [Event.streamStop, Event.savingStop] := by
  obtain ⟨cs, sav, sid, cp, si, wa⟩ := env
  by_cases hcs : cs = CameraStatus.Armed <;>
    cases cp <;> cases si <;> cases wa <;> cases sav <;>
    simp_all [prepareAcq, prepFirstErr]

/-- C5 witness: with the camera-level prepare throwing error 7, the call
re-raises 7 and its last two calls are saving stop then stream stop. -/
theorem prepareAcq_rollback_then_rethrow_witness :
    (prepareAcq ⟨CameraStatus.Ready, true, 3, some 7, none, none⟩).outcome
        = some 7 ∧
    (prepareAcq
        ⟨CameraStatus.Ready, true, 3, some 7, none, none⟩).trace.reverse.take 2
      = [Event.streamStop, Event.savingStop] :=
  prepareAcq_rollback_then_rethrow
    ⟨CameraStatus.Ready, true, 3, some 7, none, none⟩ 7 rfl

/-- C6: in `prepareAcq`, a disarm is issued iff the detector was armed, the
2-second finalize-guard sleep happens iff the detector was armed and
on-detector saving is in use, the storage clear happens iff saving is in
use, and when the detector was armed with saving in use the first three
collaborator calls are disarm, then the guard sleep, then the storage
clear — so the clear never precedes the guard delay. -/
theorem prepareAcq_disarm_guard_clear_order (env : PrepEnv) :
    (Event.camDisarm ∈ (prepareAcq env).trace ↔
      env.camStatus = CameraStatus.Armed) ∧
    (Event.sleepUsec 2000000 ∈ (prepareAcq env).trace ↔
      (env.camStatus = CameraStatus.Armed ∧ env.savingActive = true)) ∧
    (Event.camDeleteMemoryFiles ∈ (prepareAcq env).trace ↔
      env.savingActive = true) ∧
    (env.camStatus = CameraStatus.Armed → env.savingActive = true →
      (prepareAcq env).trace.take 3 =
        [Event.camDisarm, Event.sleepUsec 2000000,
         Event.camDeleteMemoryFiles]) := by
  obtain ⟨cs, sav, sid, cp, si, wa⟩ := env
  by_cases hcs : cs = CameraStatus.Armed <;>
    cases cp <;> cases si <;> cases wa <;> cases sav <;>
    simp [prepareAcq, hcs]

/-- C6 witness: with the camera armed and saving in use, the first three
calls of `prepareAcq` are disarm, the 2-second sleep, the storage clear. -/
theorem prepareAcq_disarm_guard_clear_order_witness :
    (prepareAcq ⟨CameraStatus.Armed, true, 0, none, none, none⟩).trace.take 3
      = [Event.camDisarm, Event.sleepUsec 2000000,
         Event.camDeleteMemoryFiles] :=
  (prepareAcq_disarm_guard_clear_order
    ⟨CameraStatus.Armed, true, 0, none, none, none⟩).2.2.2 rfl rfl

/-- C7: provided the earlier delegation steps return normally, `prepareAcq`
issues the stream armed wait, with its 5.0-second timeout, iff the
live-stream path is active (saving not in use); and when that wait times
out with error `e`, the call fails, propagating `e` to the caller. -/
theorem prepareAcq_waitArmed_iff_stream_path (env : PrepEnv)
    (hcp : env.camPrepareThrows = none) (hsi : env.serieIdThrows = none) :
    (Event.streamWaitArmed 5 ∈ (prepareAcq env).trace ↔
      env.savingActive = false) ∧
    (∀ e, env.savingActive = false → env.waitArmedThrows = some e →
      (prepareAcq env).outcome = some e) := by
  obtain ⟨cs, sav, sid, cp, si, wa⟩ := env
  subst hcp
  subst hsi
  cases wa <;> cases sav <;> simp [prepareAcq]

/-- C7 witness: with saving inactive and the stream failing to arm with
error 3, `prepareAcq` issues the 5.0-second armed wait and fails with 3. -/
theorem prepareAcq_waitArmed_iff_stream_path_witness :
    (Event.streamWaitArmed 5 ∈
      (prepareAcq ⟨CameraStatus.Ready, false, 0, none, none, some 3⟩).trace) ∧
    (prepareAcq ⟨CameraStatus.Ready, false, 0, none, none, some 3⟩).outcome
      = some 3 := by
  have h := prepareAcq_waitArmed_iff_stream_path
    ⟨CameraStatus.Ready, false, 0, none, none, some 3⟩ rfl rfl
  exact ⟨h.1.mpr rfl, h.2 3 rfl rfl⟩

/-! ## `Interface::startAcq` (EigerInterface.cpp lines 155-172) -/

/-- Sub-component state read by `Interface::startAcq`: the trigger mode,
the triggered-frame counter and the saving controller activity. -/
structure StartEnv where
  trigMode : TrigMode
  nbTrigFrames : Int
  savingActive : Bool
  deriving DecidableEq, Repr

/-- Direct translation of `Interface::startAcq`: start the data retrieval
subsystem (saving if active, else the stream) only when the trigger mode
is not `IntTrigMult` or no frame has been triggered yet, then always issue
the camera-level start. -/
def startAcq (env : StartEnv) : List Event :=
  (if env.trigMode ≠ TrigMode.IntTrigMult ∨ env.nbTrigFrames = 0 then
     if env.savingActive then [Event.savingStart] else [Event.streamStart]
   else []) ++ [Event.camStartAcq]

/-- C2: `startAcq` (re)starts a data-retrieval subsystem iff the trigger
mode is not internal multi-trigger or the triggered-frame counter is zero;
when it does it starts exactly one of the saving controller (if saving is
active) or the stream (otherwise), never both; and the camera-level start
is always issued, as the last call, regardless of the gating. -/
theorem startAcq_gating_and_selection (env : StartEnv) :
    ((Event.savingStart ∈ startAcq env ∨ Event.streamStart ∈ startAcq env) ↔
      (env.trigMode ≠ TrigMode.IntTrigMult ∨ env.nbTrigFrames = 0)) ∧
    ¬(Event.savingStart ∈ startAcq env ∧ Event.streamStart ∈ startAcq env) ∧
    (Event.savingStart ∈ startAcq env ↔
      ((env.trigMode ≠ TrigMode.IntTrigMult ∨ env.nbTrigFrames = 0) ∧
        env.savingActive = true)) ∧
    (Event.streamStart ∈ startAcq env ↔
      ((env.trigMode ≠ TrigMode.IntTrigMult ∨ env.nbTrigFrames = 0) ∧
        env.savingActive = false)) ∧
    (startAcq env).getLast? = some Event.camStartAcq := by
  obtain ⟨tm, nb, sav⟩ := env
  by_cases htm : tm = TrigMode.IntTrigMult <;>
    by_cases hnb : nb = 0 <;>
    cases sav <;>
    simp [startAcq, htm, hnb]

/-! ## `Interface::stopAcq` (EigerInterface.cpp lines 177-183) and
`Interface::reset` (lines 101-107) -/

/-- Which collaborator stop commands fail internally.  The stop commands
of the camera, the saving controller and the stream are fire-and-forget:
they report failure out of band and raise no exception, so the
orchestrator's control flow can never observe these flags. -/
structure StopEnv where
  camStopFails : Bool
  savingStopFails : Bool
  streamStopFails : Bool
  deriving DecidableEq, Repr

/-- Direct translation of `Interface::stopAcq`: stop the camera, then the
saving controller, then the stream, unconditionally in sequence. -/
def stopAcq (_env : StopEnv) : List Event :=
  [Event.camStopAcq, Event.savingStop, Event.streamStop]

/-- `HwInterface::ResetLevel` argument of `Interface::reset`. -/
inductive ResetLevel where
  | SoftReset
  | HardReset
  deriving DecidableEq, Repr

/-- Direct translation of `Interface::reset`: its body only calls
`stopAcq`, ignoring the reset level. -/
def reset (_reset_level : ResetLevel) (env : StopEnv) : List Event :=
  stopAcq env

/-- C4: `stopAcq` stops the camera, then the saving controller, then the
stream, in that order; the three stop calls are issued unconditionally,
for every combination of internal stop failures, so no failure of an
earlier stop prevents a later stop from executing. -/
theorem stopAcq_always_three_stops_in_order (env : StopEnv) :
    stopAcq env = [Event.camStopAcq, Event.savingStop, Event.streamStop] := by
  rfl

/-- C10: for every reset level, `reset` performs exactly the action of
`stopAcq` — camera stop, then saving stop, then stream stop — and its
behaviour does not depend on the reset level argument. -/
theorem reset_is_stopAcq_for_every_level (l1 l2 : ResetLevel)
    (env : StopEnv) :
    reset l1 env = stopAcq env ∧ reset l1 env = reset l2 env := by
  exact ⟨rfl, rfl⟩

/-! ## Constructor and destructor (EigerInterface.cpp lines 43-73, 78-87) -/

/-- The orchestrator's sub-objects and the buffer capability handle. -/
inductive Sub where
  | detInfo
  | roi
  | sync
  | saving
  | event
  | stream
  | buffer
  | decompress
  deriving DecidableEq, Repr

/-- One step of construction: creating a sub-object, probing the hardware
ROI support, or pushing a capability handle onto the registry. -/
inductive CtorStep where
  | create (s : Sub)
  | probeHwRoiSupport
  | pushCap (s : Sub)
  deriving DecidableEq, Repr

/-- Direct translation of `Interface::Interface`: create each sub-object,
probe hardware ROI support exactly once and push the ROI capability only
when supported; the buffer capability is obtained from the stream. -/
def interfaceCtor (hasHwRoiSupport : Bool) : List CtorStep :=
  [CtorStep.create Sub.detInfo, CtorStep.pushCap Sub.detInfo,
   CtorStep.create Sub.roi, CtorStep.probeHwRoiSupport] ++
  (if hasHwRoiSupport then [CtorStep.pushCap Sub.roi] else []) ++
  [CtorStep.create Sub.sync, CtorStep.pushCap Sub.sync,
   CtorStep.create Sub.saving, CtorStep.pushCap Sub.saving,
   CtorStep.create Sub.event, CtorStep.pushCap Sub.event,
   CtorStep.create Sub.stream, CtorStep.pushCap Sub.buffer,
   CtorStep.create Sub.decompress, CtorStep.pushCap Sub.decompress]

/-- The capability registry built by the constructor, in push order. -/
def capList (hasHwRoiSupport : Bool) : List Sub :=
  (interfaceCtor hasHwRoiSupport).filterMap fun step =>
    match step with
    | CtorStep.pushCap s => some s
    | _ => none

/-- C8: the registry is built in the fixed order device-info, ROI, sync,
saving, event, buffer (from the stream), decompression; the ROI entry is
present iff the model supports hardware ROI, which is probed exactly once
during construction. -/
theorem capList_fixed_order_roi_conditional :
    capList true = [Sub.detInfo, Sub.roi, Sub.sync, Sub.saving, Sub.event,
      Sub.buffer, Sub.decompress] ∧
    capList false = [Sub.detInfo, Sub.sync, Sub.saving, Sub.event,
      Sub.buffer, Sub.decompress] ∧
    (∀ b : Bool, (Sub.roi ∈ capList b ↔ b = true)) ∧
    (∀ b : Bool, (interfaceCtor b).count CtorStep.probeHwRoiSupport = 1) := by
  refine ⟨by decide, by decide, ?_, ?_⟩ <;> intro b <;> cases b <;> decide

/-- The sub-objects created by the constructor, in creation order. -/
def createdSubObjects : List Sub :=
  (interfaceCtor true).filterMap fun step =>
    match step with
    | CtorStep.create s => some s
    | _ => none

/-- Direct translation of `Interface::~Interface`: the `delete` statements
in their textual order. -/
def interfaceDtor : List Sub :=
  [Sub.detInfo, Sub.roi, Sub.sync, Sub.saving, Sub.stream, Sub.decompress]

/-- C9 counterexample: the event sub-object is created at construction but
never destroyed by the destructor, so it is false that every sub-object
created at construction is destroyed. -/
theorem dtor_misses_event_counterexample :
    Sub.event ∈ createdSubObjects ∧ Sub.event ∉ interfaceDtor := by
  decide

/-- C9 amended: the destructor destroys the det-info, ROI, sync, saving,
stream and decompression sub-objects — every created sub-object except the
event object — in the same order as their creation. -/
theorem dtor_destroys_all_but_event_in_creation_order :
    interfaceDtor = createdSubObjects.filter (fun s => s ≠ Sub.event) ∧
    Sub.event ∉ interfaceDtor := by
  decide

end EigerVerif
